import Mathlib

/-!
Shallow embedding of the core of the DNSBL reputation monitor
(app/services/dnsbl_checker.py and app/services/monitoring.py),
with theorems settling the frozen claims about its specification.

Conventions of the embedding:
* Python strings stay strings; status values are the literal strings
  used by the source ("listed", "not_listed", "blocked", "error", ...).
* Time is modelled explicitly: the result cache uses a Nat clock in
  seconds, the rate limiter a rational clock in seconds (Python uses
  float timestamps; every scenario below uses exactly representable
  values, so no rounding issue is relevant).
* The DNS resolver is an oracle `resolve : String -> String -> DNSAnswer`
  mapping (query name, record kind) to the outcome of one network call;
  each of its constructors matches one branch of the try/except in
  `_query_dns`.
* Fallible code returns `Except String _`.
* The TTLCache of cachetools is modelled as an association list with an
  insertion timestamp per entry; capacity eviction (maxsize) is not
  modelled, since every claim concerns runs without capacity pressure.
-/

set_option autoImplicit false

namespace DNSBL

/-- Outcome of one call of the network resolver, one constructor per
branch of the try/except in `DNSBLChecker._query_dns`. -/
inductive DNSAnswer where
  | success (records : List String)
  | nxdomain
  | noanswer
  | timeout
  | dnserror
  deriving Repr, DecidableEq

/-- Entry of the result cache: the stored classification of one lookup,
plus the time it was inserted (TTLCache keeps an expiry per entry). -/
structure CacheEntry where
  status : String
  records : List String
  insertedAt : Nat
  deriving Repr, DecidableEq

/-- Result cache state: association list from cache key to entry,
mirroring `DNSBLChecker._cache`. -/
abbrev Cache := List (String × CacheEntry)

/-- Embeds `DNSBLChecker._make_cache_key`. -/
def make_cache_key (target zone rrtype : String) : String :=
  target ++ ":" ++ zone ++ ":" ++ rrtype

/-- Embeds `DNSBLChecker._get_cached` together with the expiry rule of
cachetools TTLCache: an entry is returned while now < insertedAt + ttl. -/
def cacheGet (ttl : Nat) (c : Cache) (now : Nat) (k : String) : Option CacheEntry :=
  match c.find? (fun p => p.1 == k) with
  | some p => if now < p.2.insertedAt + ttl then some p.2 else none
  | none => none

/-- Embeds `DNSBLChecker._set_cache`: stores the entry under the key,
replacing any previous entry for that key. -/
def cacheSet (c : Cache) (now : Nat) (k : String) (status : String)
    (records : List String) : Cache :=
  (k, ⟨status, records, now⟩) :: c.filter (fun p => !(p.1 == k))

/-- Splits a character list at every dot, mirroring the split done by
Python ipaddress.IPv4Address on the dotted-quad string. -/
def splitOnDot : List Char → List (List Char)
  | [] => [[]]
  | c :: rest =>
    let r := splitOnDot rest
    if c = '.' then [] :: r
    else
      match r with
      | [] => [[c]]
      | h :: t => (c :: h) :: t

/-- Numeric value of a list of decimal digit characters. -/
def digitsVal (cs : List Char) : Nat :=
  cs.foldl (fun n c => n * 10 + (c.toNat - 48)) 0

/-- Embeds the octet validation done by Python ipaddress.IPv4Address on
one dotted component: decimal digits only, value at most 255, no
leading zero. -/
def parseOctet (cs : List Char) : Option Nat :=
  if cs.isEmpty || !cs.all Char.isDigit then none
  else
    let n := digitsVal cs
    if n ≤ 255 && (cs.length == 1 || cs.headD '0' != '0') then some n
    else none

/-- Embeds IPv4 parsing as used via ipaddress.IPv4Address: exactly four
valid dotted octets. -/
def parseIPv4 (s : String) : Option (Nat × Nat × Nat × Nat) :=
  match splitOnDot s.data with
  | [a, b, c, d] =>
      match parseOctet a, parseOctet b, parseOctet c, parseOctet d with
      | some x, some y, some z, some w => some (x, y, z, w)
      | _, _, _, _ => none
  | _ => none

/-- Embeds `DNSBLChecker._is_spamhaus_blocked`: the address parses as
IPv4 and lies in 127.255.255.0/24. -/
def is_spamhaus_blocked (ip : String) : Bool :=
  match parseIPv4 ip with
  | some (a, b, c, _) => a == 127 && b == 255 && c == 255
  | none => false

/-- Embeds `DNSBLChecker._build_dnsbl_query`: for a valid IPv4 address
the four octets are reversed and put in front of the zone; otherwise
the identifier itself is put in front of the zone. -/
def build_dnsbl_query (ip zone : String) : String :=
  match parseIPv4 ip with
  | some (a, b, c, d) =>
      toString d ++ "." ++ toString c ++ "." ++ toString b ++ "." ++
        toString a ++ "." ++ zone
  | none => ip ++ "." ++ zone

/-- Embeds `DNSBLChecker._query_dns` as a state-passing function over the
cache. The rate-limiter acquire that the source performs first is
modelled separately (it only delays; it touches neither the cache nor
the resolver). Returns ((status, records), cache after the call, number
of resolver calls made). The source computes the same query name in both
branches of its `if rrtype == "A"`. -/
def query_dns (resolve : String → String → DNSAnswer) (now ttl : Nat)
    (c : Cache) (target zone rrtype : String) :
    (String × List String) × Cache × Nat :=
  match cacheGet ttl c now (make_cache_key target zone rrtype) with
  | some e => ((e.status, e.records), c, 0)
  | none =>
    match resolve (build_dnsbl_query target zone) rrtype with
    | .success records =>
        (("success", records),
         cacheSet c now (make_cache_key target zone rrtype) "success" records, 1)
    | .nxdomain =>
        (("nxdomain", []),
         cacheSet c now (make_cache_key target zone rrtype) "nxdomain" [], 1)
    | .noanswer =>
        (("noanswer", []),
         cacheSet c now (make_cache_key target zone rrtype) "noanswer" [], 1)
    | .timeout =>
        (("timeout", []),
         cacheSet c now (make_cache_key target zone rrtype) "timeout" [], 1)
    | .dnserror =>
        (("error", []),
         cacheSet c now (make_cache_key target zone rrtype) "error" [], 1)

/-- Embeds the dataclass `CheckResult` of dnsbl_checker.py. -/
structure CheckResult where
  zone : String
  status : String
  a_records : List String
  txt_records : List String
  error_reason : Option String
  deriving Repr, DecidableEq

/-- Embeds `DNSBLChecker.check_zone`: one classification of a target
against one zone, threading the cache and counting resolver calls. -/
def check_zone (spamhaus : List String) (resolve : String → String → DNSAnswer)
    (now ttl : Nat) (c : Cache) (target zone : String) (include_txt : Bool) :
    CheckResult × Cache × Nat :=
  match query_dns resolve now ttl c target zone "A" with
  | ((a_status, a_records), c1, n1) =>
    if a_status = "nxdomain" ∨ a_status = "noanswer" then
      (⟨zone, "not_listed", [], [], none⟩, c1, n1)
    else if a_status = "timeout" ∨ a_status = "error" then
      (⟨zone, "error", [], [], some a_status⟩, c1, n1)
    else if a_records = [] then
      (⟨zone, "not_listed", [], [], none⟩, c1, n1)
    else if spamhaus.contains zone && a_records.any is_spamhaus_blocked then
      (⟨zone, "blocked", a_records, [], some "Blocked/limits"⟩, c1, n1)
    else if include_txt then
      match query_dns resolve now ttl c1 target zone "TXT" with
      | ((_, txt_records), c2, n2) =>
        (⟨zone, "listed", a_records, txt_records, none⟩, c2, n1 + n2)
    else
      (⟨zone, "listed", a_records, [], none⟩, c1, n1)

/-- Entry of the `listed` bucket built by `check_target`
(`{"zone": ..., "a": ..., "txt": ...}`). -/
structure ListedEntry where
  zone : String
  a : List String
  txt : List String
  deriving Repr, DecidableEq

/-- Entry of the `blocked` bucket built by `check_target`
(`{"zone": ..., "a": ..., "error": ...}`). -/
structure BlockedEntry where
  zone : String
  a : List String
  error : Option String
  deriving Repr, DecidableEq

/-- Entry of the `errors` bucket built by `check_target`
(`{"zone": ..., "error": ...}`). -/
structure ErrorEntry where
  zone : String
  error : String
  deriving Repr, DecidableEq

/-- Element of the list returned by `asyncio.gather(..,
return_exceptions=True)` inside `check_target`: either the tuple
(zone, CheckResult) returned by `check_single`, or the exception object
itself when the zone check raised (gather substitutes the bare
exception for the tuple). -/
inductive GatherItem where
  | ok (zone : String) (r : CheckResult)
  | exn (msg : String)
  deriving Repr, DecidableEq

/-- Buckets accumulated by the aggregation loop of `check_target`. -/
structure AggBuckets where
  listed : List ListedEntry
  blocked : List BlockedEntry
  errors : List ErrorEntry
  notListedCount : Nat
  deriving Repr, DecidableEq

/-- Embeds the aggregation loop of `check_target` (`for zone, result in
results:`). The loop header unpacks each element into the pair
(zone, result); when the element is a bare exception object this
unpacking raises TypeError, so the whole aggregation fails — the
`isinstance(result, Exception)` branch of the source, which would have
recorded the exception in the errors bucket, is unreachable. An item
whose status is none of the four known strings is counted in no
bucket. -/
def aggregate_items : List GatherItem → Except String AggBuckets
  | [] => .ok ⟨[], [], [], 0⟩
  | .exn _ :: _ =>
      .error "TypeError: cannot unpack non-iterable exception object"
  | .ok z r :: rest =>
    match aggregate_items rest with
    | .error e => .error e
    | .ok b =>
      if r.status = "listed" then
        .ok { b with listed := ⟨z, r.a_records, r.txt_records⟩ :: b.listed }
      else if r.status = "blocked" then
        .ok { b with blocked := ⟨z, r.a_records, r.error_reason⟩ :: b.blocked }
      else if r.status = "error" then
        .ok { b with errors := ⟨z, r.error_reason.getD "Unknown error"⟩ :: b.errors }
      else if r.status = "not_listed" then
        .ok { b with notListedCount := b.notListedCount + 1 }
      else
        .ok b

/-- Embeds the dataclass `TargetResult` of dnsbl_checker.py. -/
structure TargetResult where
  target : String
  target_type : String
  listed : List ListedEntry
  blocked : List BlockedEntry
  errors : List ErrorEntry
  not_listed_zones_count : Nat
  deriving Repr, DecidableEq

/-- Runs `check_zone` over a list of zones, threading the cache, and
collects the gathered (zone, result) pairs in zone order. This is the
sequential linearisation of the bounded-concurrency gather of
`check_target`; in the embedding `check_zone` is total, so every item
is an `ok` pair. -/
def check_zones_items (spamhaus : List String)
    (resolve : String → String → DNSAnswer) (now ttl : Nat)
    (target : String) (include_txt : Bool) :
    Cache → List String → List GatherItem × Cache
  | c, [] => ([], c)
  | c, z :: zs =>
    let t := check_zone spamhaus resolve now ttl c target z include_txt
    let rest := check_zones_items spamhaus resolve now ttl target include_txt t.2.1 zs
    (GatherItem.ok z t.1 :: rest.1, rest.2)

/-- Embeds `DNSBLChecker.check_target`: classifies the target type by
IPv4 parseability, checks every zone, and aggregates the buckets. -/
def check_target (spamhaus : List String)
    (resolve : String → String → DNSAnswer) (now ttl : Nat) (c : Cache)
    (target : String) (zones : List String) (include_txt : Bool) :
    Except String TargetResult × Cache :=
  let target_type := if (parseIPv4 target).isSome then "ip" else "domain"
  let items := check_zones_items spamhaus resolve now ttl target include_txt c zones
  match aggregate_items items.1 with
  | .ok b =>
      (.ok ⟨target, target_type, b.listed, b.blocked, b.errors, b.notListedCount⟩,
       items.2)
  | .error e => (.error e, items.2)

/-!
Rate limiter (`RateLimiter` of dnsbl_checker.py).

The lock of the source is held across the whole body of `acquire`,
including the sleep, so concurrent acquires for a zone are fully
serialized; the embedding is therefore a sequential function from
(state, time the lock is obtained) to (wall-clock time the acquire
returns and records its grant, new state). Timestamps are integers in
ticks of 10 milliseconds, so the 1.0-second window of the source is
`oneSecond = 100` ticks (Python float timestamps are exact on every
scenario used below). State is the timestamp list kept for one zone
(lists of distinct zones are independent in the source).
-/

/-- One second, in the 10-millisecond ticks used as the limiter clock. -/
def oneSecond : Int := 100

/-- Embeds `RateLimiter.acquire` for one zone. `now` is the clock value
read after the lock is obtained. If the cleaned window is full the
caller sleeps until the oldest recorded timestamp leaves the window,
cleans again with the stale cutoff computed before the sleep, and then
appends `now` — the clock value from before the sleep. The returned
integer is the wall-clock time at which the grant actually happens
(entry time plus any sleep). The source indexes `requests[zone][0]`,
which exists whenever `max_requests ≥ 1`; for an empty list the
embedding uses 0 (the source would raise IndexError, a case no claim
touches). -/
def acquire (maxReq : Nat) (reqs : List Int) (now : Int) : Int × List Int :=
  let cutoff := now - oneSecond
  let cleaned := reqs.filter (fun t => decide (cutoff < t))
  if maxReq ≤ cleaned.length then
    let sleepTime := cleaned.headD 0 - cutoff
    if 0 < sleepTime then
      let cleaned2 := cleaned.filter (fun t => decide (cutoff < t))
      (now + sleepTime, cleaned2 ++ [now])
    else
      (now, cleaned ++ [now])
  else
    (now, cleaned ++ [now])

/-- Runs a sequence of serialized `acquire` calls: for each entry time
in the schedule, performs one acquire and collects the wall-clock grant
times in order, returning also the final limiter state. -/
def runAcquires (maxReq : Nat) (reqs : List Int) : List Int → List Int × List Int
  | [] => ([], reqs)
  | t :: ts =>
    let g := acquire maxReq reqs t
    let rest := runAcquires maxReq g.2 ts
    (g.1 :: rest.1, rest.2)

/-- Checks that a schedule of lock-acquisition times is realizable under
the serialization imposed by the lock: each call can only obtain the
lock at or after the previous acquire returned (its grant time). -/
def admissibleFrom (maxReq : Nat) (reqs : List Int) (lastGrant : Int) :
    List Int → Bool
  | [] => true
  | t :: ts =>
    decide (lastGrant ≤ t) &&
      (let g := acquire maxReq reqs t
       admissibleFrom maxReq g.2 g.1 ts)

/-- Number of grant times lying in the rolling 1-second window ending at
`tEnd` (window (tEnd - oneSecond, tEnd]). -/
def grantsInWindow (grants : List Int) (tEnd : Int) : Nat :=
  (grants.filter (fun t => decide (tEnd - oneSecond < t) && decide (t ≤ tEnd))).length

/-!
Monitoring service (app/services/monitoring.py).

The store of CheckResult rows is modelled for one target: a list of
rows keyed by zone name (zone names are unique in the zones table, so
they are in bijection with the zone ids the source keys by). Time is a
Nat clock (datetime.utcnow of the source).
-/

/-- Embeds a stored CheckResult row of the database for one target:
status, A records (None when the list was empty, as stored by
`json.dumps(a_records) if a_records else None`), error reason,
timestamps, and the id of the run that produced it. -/
structure StoredRow where
  zone : String
  status : String
  a_records : Option (List String)
  error_reason : Option String
  last_seen : Nat
  last_checked : Nat
  runId : Nat
  deriving Repr, DecidableEq

/-- Embeds an Alert row as created by `MonitoringService._create_alert`. -/
structure AlertRec where
  alert_type : String
  zone : String
  old_status : Option String
  new_status : String
  message : String
  webhook_sent : Bool
  deriving Repr, DecidableEq

/-- Updates the first element satisfying the predicate, leaving the rest
unchanged. This is the effect of mutating the row returned by
`query(...).first()`. -/
def updateFirst (p : StoredRow → Bool) (f : StoredRow → StoredRow) :
    List StoredRow → List StoredRow
  | [] => []
  | r :: rs => if p r then f r :: rs else r :: updateFirst p f rs

/-- Embeds the field updates performed by `_save_check_result` on the
existing row (the `if existing:` branch): status, a_records and
last_checked are overwritten, last_seen only when the status is not
"not_listed", error_reason and run_id are overwritten. -/
def save_update (status : String) (a_records : List String) (run_id : Nat)
    (error_reason : Option String) (now : Nat) (r : StoredRow) : StoredRow :=
  { r with
    status := status
    a_records := if a_records.isEmpty then none else some a_records
    last_checked := now
    last_seen := if status = "not_listed" then r.last_seen else now
    error_reason := error_reason
    runId := run_id }

/-- Embeds `MonitoringService._save_check_result` for one target: if a
row for the (target, zone) pair exists, the first such row is updated
in place (status, a_records, last_checked and error_reason always;
last_seen only when the status is not "not_listed"); otherwise a new
row is inserted (the source sets last_seen of a fresh row to utcnow in
both arms of its conditional). -/
def save_check_result (store : List StoredRow) (zone status : String)
    (a_records : List String) (run_id : Nat) (error_reason : Option String)
    (now : Nat) : List StoredRow :=
  if (store.find? (fun r => r.zone == zone)).isSome then
    updateFirst (fun r => r.zone == zone)
      (save_update status a_records run_id error_reason now) store
  else
    store ++ [⟨zone, status,
      (if a_records.isEmpty then none else some a_records),
      error_reason, now, now, run_id⟩]

/-- Embeds the `for listed in result["listed"]` loop of `run_monitoring`
for one target: each entry whose zone is known (present in the runs
zone map) is saved with status "listed"; an alert of type
"newly_listed" is created when the pre-run snapshot status for the pair
differs from "listed" (including the no-prior-record case). Returns the
updated store, the created alerts in order, and the number of processed
entries (the contribution to listed_count and total_checks). -/
def process_listed (known : List String) (prev : String → Option String)
    (target : String) (run_id now : Nat) :
    List ListedEntry → List StoredRow → List StoredRow × List AlertRec × Nat
  | [], store => (store, [], 0)
  | e :: rest, store =>
    if known.contains e.zone then
      let store1 := save_check_result store e.zone "listed" e.a run_id none now
      let t := process_listed known prev target run_id now rest store1
      if prev e.zone ≠ some "listed" then
        (t.1,
         ⟨"newly_listed", e.zone, prev e.zone, "listed",
           "Target " ++ target ++ " is now listed on " ++ e.zone, false⟩ :: t.2.1,
         t.2.2 + 1)
      else
        (t.1, t.2.1, t.2.2 + 1)
    else
      process_listed known prev target run_id now rest store

/-- Embeds the `for blocked in result["blocked"]` loop of
`run_monitoring` for one target, in the same shape as
`process_listed`: status "blocked", alert type "blocked", created when
the snapshot status differs from "blocked". -/
def process_blocked (known : List String) (prev : String → Option String)
    (target : String) (run_id now : Nat) :
    List BlockedEntry → List StoredRow → List StoredRow × List AlertRec × Nat
  | [], store => (store, [], 0)
  | e :: rest, store =>
    if known.contains e.zone then
      let store1 := save_check_result store e.zone "blocked" e.a run_id none now
      let t := process_blocked known prev target run_id now rest store1
      if prev e.zone ≠ some "blocked" then
        (t.1,
         ⟨"blocked", e.zone, prev e.zone, "blocked",
           "Target " ++ target ++ " is blocked on " ++ e.zone ++
             " (limits reached)", false⟩ :: t.2.1,
         t.2.2 + 1)
      else
        (t.1, t.2.1, t.2.2 + 1)
    else
      process_blocked known prev target run_id now rest store

/-- Embeds the `for error in result["errors"]` loop of `run_monitoring`
for one target: each known-zone entry is saved with status "error" and
its error text; no alert is ever created here. -/
def process_errors (known : List String) (run_id now : Nat) :
    List ErrorEntry → List StoredRow → List StoredRow × Nat
  | [], store => (store, 0)
  | e :: rest, store =>
    if known.contains e.zone then
      let store1 := save_check_result store e.zone "error" [] run_id (some e.error) now
      let t := process_errors known run_id now rest store1
      (t.1, t.2 + 1)
    else
      process_errors known run_id now rest store

/-- Embeds the per-target body of the result-processing loop of
`run_monitoring` (source lines 110-167): the listed, blocked and errors
buckets are processed in that order; not_listed outcomes are not saved.
Returns (final store, alerts in creation order, listed count, blocked
count, error count). -/
def process_target_result (known : List String) (prev : String → Option String)
    (target : String) (run_id now : Nat) (tr : TargetResult)
    (store : List StoredRow) :
    List StoredRow × List AlertRec × Nat × Nat × Nat :=
  let l := process_listed known prev target run_id now tr.listed store
  let b := process_blocked known prev target run_id now tr.blocked l.1
  let e := process_errors known run_id now tr.errors b.1
  (e.1, l.2.1 ++ b.2.1, l.2.2, b.2.2, e.2)

/-- Observable events of one `run_monitoring` call, in program order. -/
inductive Event where
  | runCreated
  | markedCompleted
  | markedFailed
  | webhookDispatched
  | flagCleared
  | raised (msg : String)
  deriving Repr, DecidableEq

/-- Embeds the control flow of `MonitoringService.run_monitoring` as the
sequence of its observable events. `isRunning` is the value of the
`_is_running` flag at entry; `emptyScope` tells whether the resolved
target or zone set is empty (the early-return path of source lines
68-74); `stepsFail` is `some msg` when steps 2-5 raise an uncaught
exception with that message. On entry with the flag set, the call
raises RuntimeError before creating any Run record. On the normal
non-empty path the run is marked completed, `_send_webhooks` is awaited,
and the `finally` block clears the flag. On the exception path the run
is marked failed, the `finally` block clears the flag, and the exception
propagates — `_send_webhooks` is never reached. On the empty-scope path
the run is marked completed and the flag cleared with no webhook
dispatch. -/
def run_monitoring_trace (isRunning emptyScope : Bool)
    (stepsFail : Option String) : List Event :=
  if isRunning then
    [.raised "Monitoring is already running"]
  else if emptyScope then
    [.runCreated, .markedCompleted, .flagCleared]
  else
    match stepsFail with
    | some e => [.runCreated, .markedFailed, .flagCleared, .raised e]
    | none => [.runCreated, .markedCompleted, .webhookDispatched, .flagCleared]

/-!
Helper lemmas shared between claim theorems.
-/

/-- Every branch of `check_zone` returns one of the four status
strings. -/
theorem check_zone_status_mem (sp : List String)
    (resolve : String → String → DNSAnswer) (now ttl : Nat) (c : Cache)
    (target zone : String) (itxt : Bool) :
    (check_zone sp resolve now ttl c target zone itxt).1.status ∈
      (["listed", "not_listed", "blocked", "error"] : List String) := by
  unfold check_zone
  rcases hq : query_dns resolve now ttl c target zone "A" with ⟨⟨st, recs⟩, c1, n1⟩
  dsimp only
  split_ifs <;> simp

/-- When every gathered item is a (zone, result) pair whose status is
one of the four known strings, the aggregation succeeds and the bucket
sizes partition the items. -/
theorem aggregate_items_ok (items : List GatherItem)
    (h : ∀ i ∈ items, ∃ z r, i = GatherItem.ok z r ∧
      r.status ∈ (["listed", "not_listed", "blocked", "error"] : List String)) :
    ∃ b, aggregate_items items = .ok b ∧
      b.listed.length + b.blocked.length + b.errors.length + b.notListedCount =
        items.length := by
  induction items with
  | nil => exact ⟨⟨[], [], [], 0⟩, rfl, rfl⟩
  | cons i rest ih =>
    obtain ⟨z, r, hi, hst⟩ := h i (by simp)
    obtain ⟨b, hb, hsum⟩ := ih (fun j hj => h j (by simp [hj]))
    subst hi
    simp only [List.mem_cons, List.mem_singleton, List.not_mem_nil, or_false] at hst
    rcases hst with h4 | h4 | h4 | h4
    · exact ⟨{ b with listed := ⟨z, r.a_records, r.txt_records⟩ :: b.listed },
        by simp [aggregate_items, hb, h4],
        by simp only [List.length_cons] at hsum ⊢; omega⟩
    · exact ⟨{ b with notListedCount := b.notListedCount + 1 },
        by simp [aggregate_items, hb, h4],
        by simp only [List.length_cons] at hsum ⊢; omega⟩
    · exact ⟨{ b with blocked := ⟨z, r.a_records, r.error_reason⟩ :: b.blocked },
        by simp [aggregate_items, hb, h4],
        by simp only [List.length_cons] at hsum ⊢; omega⟩
    · exact ⟨{ b with errors := ⟨z, r.error_reason.getD "Unknown error"⟩ :: b.errors },
        by simp [aggregate_items, hb, h4],
        by simp only [List.length_cons] at hsum ⊢; omega⟩

/-- The gathered items of a `check_target` call are one (zone, result)
pair per input zone, each with one of the four known statuses. -/
theorem check_zones_items_spec (sp : List String)
    (resolve : String → String → DNSAnswer) (now ttl : Nat) (target : String)
    (itxt : Bool) :
    ∀ zones c,
      (check_zones_items sp resolve now ttl target itxt c zones).1.length =
        zones.length ∧
      (∀ i ∈ (check_zones_items sp resolve now ttl target itxt c zones).1,
        ∃ z r, i = GatherItem.ok z r ∧
          r.status ∈ (["listed", "not_listed", "blocked", "error"] : List String)) := by
  intro zones
  induction zones with
  | nil => intro c; simp [check_zones_items]
  | cons z zs ih =>
    intro c
    obtain ⟨hl, hall⟩ := ih (check_zone sp resolve now ttl c target z itxt).2.1
    constructor
    · simp [check_zones_items, hl]
    · intro i hi
      simp only [check_zones_items, List.mem_cons] at hi
      rcases hi with hi | hi
      · exact ⟨z, _, hi, check_zone_status_mem sp resolve now ttl c target z itxt⟩
      · exact hall i hi

/-- Alerts produced by the listed loop: one "newly_listed" alert per
known-zone entry whose snapshot status differs from "listed". -/
theorem process_listed_alerts (known : List String) (prev : String → Option String)
    (target : String) (rid now : Nat) (es : List ListedEntry)
    (store : List StoredRow) :
    (process_listed known prev target rid now es store).2.1 =
      es.filterMap (fun e =>
        if e.zone ∈ known ∧ ¬(prev e.zone = some "listed") then
          some ⟨"newly_listed", e.zone, prev e.zone, "listed",
            "Target " ++ target ++ " is now listed on " ++ e.zone, false⟩
        else none) := by
  induction es generalizing store with
  | nil => rfl
  | cons e rest ih =>
    simp only [process_listed, List.filterMap_cons]
    by_cases hk : e.zone ∈ known
    · by_cases hp : prev e.zone = some "listed"
      · simp [hk, hp, ih]
      · simp [hk, hp, ih]
    · simp [hk, ih]

/-- Alerts produced by the blocked loop: one "blocked" alert per
known-zone entry whose snapshot status differs from "blocked". -/
theorem process_blocked_alerts (known : List String) (prev : String → Option String)
    (target : String) (rid now : Nat) (es : List BlockedEntry)
    (store : List StoredRow) :
    (process_blocked known prev target rid now es store).2.1 =
      es.filterMap (fun e =>
        if e.zone ∈ known ∧ ¬(prev e.zone = some "blocked") then
          some ⟨"blocked", e.zone, prev e.zone, "blocked",
            "Target " ++ target ++ " is blocked on " ++ e.zone ++
              " (limits reached)", false⟩
        else none) := by
  induction es generalizing store with
  | nil => rfl
  | cons e rest ih =>
    simp only [process_blocked, List.filterMap_cons]
    by_cases hk : e.zone ∈ known
    · by_cases hp : prev e.zone = some "blocked"
      · simp [hk, hp, ih]
      · simp [hk, hp, ih]
    · simp [hk, ih]

/-- The length of a list is preserved under `updateFirst`. -/
theorem updateFirst_length (p : StoredRow → Bool) (f : StoredRow → StoredRow)
    (l : List StoredRow) : (updateFirst p f l).length = l.length := by
  induction l with
  | nil => rfl
  | cons a tl ih =>
    simp only [updateFirst]
    split <;> simp [ih]

/-- The zone column is unchanged by `updateFirst` with a zone-preserving
update. -/
theorem updateFirst_map_zone (p : StoredRow → Bool) (f : StoredRow → StoredRow)
    (hf : ∀ r, (f r).zone = r.zone) (l : List StoredRow) :
    (updateFirst p f l).map StoredRow.zone = l.map StoredRow.zone := by
  induction l with
  | nil => rfl
  | cons a tl ih =>
    simp only [updateFirst]
    split <;> simp [ih, hf]

/-- When zones are unique, the row matching the zone is replaced by its
update in the result of `updateFirst`. -/
theorem updateFirst_mem (l : List StoredRow) (zone : String)
    (f : StoredRow → StoredRow) (hnd : (l.map StoredRow.zone).Nodup)
    (r : StoredRow) (hr : r ∈ l) (hz : r.zone = zone) :
    f r ∈ updateFirst (fun x => x.zone == zone) f l := by
  induction l with
  | nil => cases hr
  | cons a tl ih =>
    simp only [updateFirst]
    by_cases ha : (a.zone == zone) = true
    · rcases List.mem_cons.mp hr with rfl | hrtl
      · simp [ha]
      · exfalso
        have haz : a.zone = zone := by simpa using ha
        have hmm : r.zone ∈ tl.map StoredRow.zone := List.mem_map_of_mem _ hrtl
        rw [hz, ← haz] at hmm
        exact (List.nodup_cons.mp (by simpa using hnd)).1 hmm
    · rcases List.mem_cons.mp hr with rfl | hrtl
      · exact absurd (by simp [hz]) ha
      · rw [if_neg ha]
        exact List.mem_cons_of_mem a
          (ih (List.nodup_cons.mp (by simpa using hnd)).2 hrtl)

/-!
Claim theorems.
-/

/-- Claim C10: for every `check_target` call in which no zone check
raises an exception (in the embedding every zone check is total, so
every call qualifies), each input zone is counted in exactly one bucket
of the returned TargetResult: the lengths of the listed, blocked and
errors buckets plus the not-listed count add up to the number of input
zones. -/
theorem c10_bucket_partition (sp : List String)
    (resolve : String → String → DNSAnswer) (now ttl : Nat) (c : Cache)
    (target : String) (zones : List String) (itxt : Bool) :
    ∃ tr, (check_target sp resolve now ttl c target zones itxt).1 = .ok tr ∧
      tr.listed.length + tr.blocked.length + tr.errors.length +
        tr.not_listed_zones_count = zones.length := by
  obtain ⟨hl, hall⟩ := check_zones_items_spec sp resolve now ttl target itxt zones c
  obtain ⟨b, hb, hsum⟩ := aggregate_items_ok _ hall
  refine ⟨⟨target, if (parseIPv4 target).isSome then "ip" else "domain",
    b.listed, b.blocked, b.errors, b.notListedCount⟩, ?_, ?_⟩
  · simp [check_target, hb]
  · simp only []
    omega

/-- Claim C1, counterexample. The claim states that `run_monitoring`
invokes the webhook dispatch step for the run on the failure path as
well. On a run where steps 2-5 raise (for example a database write
failure), the trace of the source is: run created, run marked failed,
running flag cleared, exception re-raised — the webhook dispatch event
never occurs, refuting the claim. -/
theorem c1_counterexample :
    run_monitoring_trace false false (some "database write failed") =
      [Event.runCreated, Event.markedFailed, Event.flagCleared,
       Event.raised "database write failed"] ∧
    Event.webhookDispatched ∉
      run_monitoring_trace false false (some "database write failed") := by
  decide

/-- Claim C1, amended: webhook dispatch is invoked, after the run is
marked completed and before the running flag is cleared, exactly on the
normal-completion path with a non-empty scope; on the empty-scope early
return the run is marked completed with no webhook dispatch; when steps
2-5 raise, the run is marked failed and the exception re-raised with no
webhook dispatch; the running flag is cleared on every path. -/
theorem c1_webhook_dispatch_paths :
    (∀ f, run_monitoring_trace false true f =
      [Event.runCreated, Event.markedCompleted, Event.flagCleared]) ∧
    run_monitoring_trace false false none =
      [Event.runCreated, Event.markedCompleted, Event.webhookDispatched,
       Event.flagCleared] ∧
    (∀ e, run_monitoring_trace false false (some e) =
      [Event.runCreated, Event.markedFailed, Event.flagCleared,
       Event.raised e]) :=
  ⟨fun _ => rfl, rfl, fun _ => rfl⟩

/-- Claim C2. The claim states that at most `max_requests` grants are
issued within any rolling 1-second window. The code records the
pre-sleep clock value and re-cleans with the stale cutoff after
sleeping, so the recorded timestamps lag the actual grant times and a
later caller is admitted too early. Witnessing schedule (limit 1 per
second, times in 10 ms ticks): lock-acquisition times 0, 1 and 101.
The schedule is realizable under the serialization of the lock
(`admissibleFrom` checks each acquisition happens at or after the
previous grant), the actual grant times are 0, 100 and 101, and the
rolling 1-second window ending at tick 101 contains 2 grants — more
than the configured limit of 1. -/
theorem c2_rate_limit_window_violation :
    admissibleFrom 1 [] (-oneSecond) [0, 1, 101] = true ∧
    (runAcquires 1 [] [0, 1, 101]).1 = [0, 100, 101] ∧
    grantsInWindow [0, 100, 101] 101 = 2 ∧
    1 < 2 := by
  decide

/-- Claim C3. The claim states that an exception raised while checking
one zone is recorded as an error-bucket entry and the remaining zones
are still aggregated. In the source, `asyncio.gather(...,
return_exceptions=True)` puts the bare exception object in the results
list, and the aggregation loop header `for zone, result in results:`
raises TypeError when unpacking it, before the (unreachable)
`isinstance(result, Exception)` branch could record it. Evaluating the
embedded aggregation on a gathered list where the check of one zone
raised shows the whole aggregation failing instead of producing a
TargetResult with an error entry. -/
theorem c3_aggregation_raises_on_exception :
    aggregate_items
      [GatherItem.exn "boom",
       GatherItem.ok "zone2" ⟨"zone2", "not_listed", [], [], none⟩] =
      Except.error "TypeError: cannot unpack non-iterable exception object" :=
  rfl

/-- Claim C4, counterexample. The claim states the reason is exactly
"blocked/limits". At the exact example of the spec (identifier 5.6.7.8,
a Spamhaus special-range zone returning 127.255.255.10) the source
classifies as blocked but sets the reason string "Blocked/limits" with
a capital B, not "blocked/limits". -/
theorem c4_counterexample :
    (check_zone ["zen.spamhaus.org"]
      (fun _ _ => DNSAnswer.success ["127.255.255.10"]) 0 3600 []
      "5.6.7.8" "zen.spamhaus.org" false).1.status = "blocked" ∧
    (check_zone ["zen.spamhaus.org"]
      (fun _ _ => DNSAnswer.success ["127.255.255.10"]) 0 3600 []
      "5.6.7.8" "zen.spamhaus.org" false).1.a_records = ["127.255.255.10"] ∧
    (check_zone ["zen.spamhaus.org"]
      (fun _ _ => DNSAnswer.success ["127.255.255.10"]) 0 3600 []
      "5.6.7.8" "zen.spamhaus.org" false).1.error_reason ≠
        some "blocked/limits" ∧
    (check_zone ["zen.spamhaus.org"]
      (fun _ _ => DNSAnswer.success ["127.255.255.10"]) 0 3600 []
      "5.6.7.8" "zen.spamhaus.org" false).1.error_reason =
        some "Blocked/limits" := by
  decide

/-- Claim C4, amended: for a special-range (Spamhaus) zone, if the
lookup succeeds with at least one record and any returned address lies
in the reserved blocked /24 sub-range 127.255.255.0/24, `check_zone`
returns status "blocked" carrying the returned addresses, with reason
exactly "Blocked/limits". -/
theorem c4_blocked_classification (sp : List String)
    (resolve : String → String → DNSAnswer) (now ttl : Nat) (c : Cache)
    (target zone : String) (recs : List String) (itxt : Bool)
    (hz : sp.contains zone = true)
    (hm : cacheGet ttl c now (make_cache_key target zone "A") = none)
    (hr : resolve (build_dnsbl_query target zone) "A" = .success recs)
    (hb : recs.any is_spamhaus_blocked = true) :
    (check_zone sp resolve now ttl c target zone itxt).1 =
      ⟨zone, "blocked", recs, [], some "Blocked/limits"⟩ := by
  cases recs with
  | nil => simp at hb
  | cons a l =>
    have hz2 : zone ∈ sp := by
      simpa using hz
    unfold check_zone query_dns
    rw [hm, hr]
    simp [hz2, hb]

/-- Claim C4, witness: the amended theorem applied at the concrete
example of the spec (identifier 5.6.7.8, Spamhaus zone returning
127.255.255.10). -/
theorem c4_blocked_classification_witness :
    (check_zone ["zen.spamhaus.org"]
      (fun _ _ => DNSAnswer.success ["127.255.255.10"]) 0 3600 []
      "5.6.7.8" "zen.spamhaus.org" false).1 =
      ⟨"zen.spamhaus.org", "blocked", ["127.255.255.10"], [],
       some "Blocked/limits"⟩ :=
  c4_blocked_classification ["zen.spamhaus.org"]
    (fun _ _ => DNSAnswer.success ["127.255.255.10"]) 0 3600 []
    "5.6.7.8" "zen.spamhaus.org" ["127.255.255.10"] false
    (by decide) (by decide) rfl (by decide)

/-- Claim C7: `check_zone` maps the lookup outcome as follows — the
returned status is one of {listed, not_listed, blocked, error} for
every input, and on a fresh lookup (the cache misses): no-such-name and
no-matching-record yield "not_listed" with no addresses and no error
reason, timeout and a generic protocol error yield "error" with the
error kind ("timeout" respectively "error") recorded as the reason, and
success with zero records yields "not_listed". -/
theorem c7_check_zone_taxonomy (sp : List String)
    (resolve : String → String → DNSAnswer) (now ttl : Nat) (c : Cache)
    (target zone : String) (itxt : Bool) :
    ((check_zone sp resolve now ttl c target zone itxt).1.status ∈
      (["listed", "not_listed", "blocked", "error"] : List String)) ∧
    (cacheGet ttl c now (make_cache_key target zone "A") = none →
      ((resolve (build_dnsbl_query target zone) "A" = DNSAnswer.nxdomain →
          (check_zone sp resolve now ttl c target zone itxt).1 =
            ⟨zone, "not_listed", [], [], none⟩) ∧
       (resolve (build_dnsbl_query target zone) "A" = DNSAnswer.noanswer →
          (check_zone sp resolve now ttl c target zone itxt).1 =
            ⟨zone, "not_listed", [], [], none⟩) ∧
       (resolve (build_dnsbl_query target zone) "A" = DNSAnswer.timeout →
          (check_zone sp resolve now ttl c target zone itxt).1 =
            ⟨zone, "error", [], [], some "timeout"⟩) ∧
       (resolve (build_dnsbl_query target zone) "A" = DNSAnswer.dnserror →
          (check_zone sp resolve now ttl c target zone itxt).1 =
            ⟨zone, "error", [], [], some "error"⟩) ∧
       (resolve (build_dnsbl_query target zone) "A" = DNSAnswer.success [] →
          (check_zone sp resolve now ttl c target zone itxt).1 =
            ⟨zone, "not_listed", [], [], none⟩))) := by
  refine ⟨check_zone_status_mem sp resolve now ttl c target zone itxt, ?_⟩
  intro hm
  refine ⟨?_, ?_, ?_, ?_, ?_⟩ <;>
    · intro hr
      unfold check_zone query_dns
      rw [hm, hr]
      simp

/-- Claim C7, witness: the taxonomy theorem applied at the timeout
example of the spec (identifier 9.9.9.9, zone z, resolver times out):
status "error" with reason "timeout". -/
theorem c7_check_zone_taxonomy_witness :
    (check_zone [] (fun _ _ => DNSAnswer.timeout) 0 3600 [] "9.9.9.9" "z"
        false).1 =
      ⟨"z", "error", [], [], some "timeout"⟩ :=
  ((c7_check_zone_taxonomy [] (fun _ _ => DNSAnswer.timeout) 0 3600 []
      "9.9.9.9" "z" false).2 rfl).2.2.1 rfl

/-- Claim C6: on a cache miss, every `_query_dns` outcome — success,
no-such-name, no-matching-record, timeout and generic DNS error — is
written to the result cache under the (target, zone, record-kind) key
before being returned, and repeating the identical lookup within the
TTL returns exactly the previously returned classification, leaves the
cache unchanged, and performs zero resolver calls (the second call is
stated for an arbitrary second resolver oracle, so no network call can
influence it). -/
theorem c6_cache_write_and_hit (resolve resolve2 : String → String → DNSAnswer)
    (now now2 ttl : Nat) (c : Cache) (target zone rrtype : String)
    (h1 : cacheGet ttl c now (make_cache_key target zone rrtype) = none)
    (h2 : now ≤ now2) (h3 : now2 < now + ttl) :
    cacheGet ttl (query_dns resolve now ttl c target zone rrtype).2.1 now
        (make_cache_key target zone rrtype) =
      some ⟨(query_dns resolve now ttl c target zone rrtype).1.1,
            (query_dns resolve now ttl c target zone rrtype).1.2, now⟩ ∧
    query_dns resolve2 now2 ttl
        (query_dns resolve now ttl c target zone rrtype).2.1 target zone rrtype =
      ((query_dns resolve now ttl c target zone rrtype).1,
       (query_dns resolve now ttl c target zone rrtype).2.1, 0) := by
  have httl : now < now + ttl := by omega
  unfold query_dns
  rw [h1]
  cases hres : resolve (build_dnsbl_query target zone) rrtype <;>
    simp [cacheGet, cacheSet, h3, httl]

/-- Claim C6, witness: the cache theorem applied at a concrete first
lookup (success with one record at time 0, TTL 3600 seconds) repeated
at time 1 against a resolver that would now answer differently: the
entry is present and the repeat returns the original classification
with zero resolver calls. -/
theorem c6_cache_write_and_hit_witness :
    cacheGet 3600
        (query_dns (fun _ _ => DNSAnswer.success ["127.0.0.2"]) 0 3600 []
          "1.2.3.4" "z" "A").2.1 0 (make_cache_key "1.2.3.4" "z" "A") =
      some ⟨(query_dns (fun _ _ => DNSAnswer.success ["127.0.0.2"]) 0 3600 []
              "1.2.3.4" "z" "A").1.1,
            (query_dns (fun _ _ => DNSAnswer.success ["127.0.0.2"]) 0 3600 []
              "1.2.3.4" "z" "A").1.2, 0⟩ ∧
    query_dns (fun _ _ => DNSAnswer.nxdomain) 1 3600
        (query_dns (fun _ _ => DNSAnswer.success ["127.0.0.2"]) 0 3600 []
          "1.2.3.4" "z" "A").2.1 "1.2.3.4" "z" "A" =
      ((query_dns (fun _ _ => DNSAnswer.success ["127.0.0.2"]) 0 3600 []
          "1.2.3.4" "z" "A").1,
       (query_dns (fun _ _ => DNSAnswer.success ["127.0.0.2"]) 0 3600 []
          "1.2.3.4" "z" "A").2.1, 0) :=
  c6_cache_write_and_hit (fun _ _ => DNSAnswer.success ["127.0.0.2"])
    (fun _ _ => DNSAnswer.nxdomain) 0 1 3600 [] "1.2.3.4" "z" "A"
    rfl (by decide) (by decide)

/-- Claim C5: during the result-processing loop of `run_monitoring`, an
Alert is created for a pair if and only if the new stored status for
that pair ("listed" for listed-bucket entries, "blocked" for
blocked-bucket entries) differs from the pre-run snapshot status for
the pair, the absent snapshot (no prior record) counting as different;
a result equal to the snapshot status, and every error-bucket result,
produces no Alert. The snapshot `prev` is fixed before processing, as
in the source. -/
theorem c5_alert_iff_transition (known : List String)
    (prev : String → Option String) (target : String) (rid now : Nat)
    (tr : TargetResult) (store : List StoredRow) (z s : String)
    (h1 : ∀ e ∈ tr.listed, e.zone ∈ known)
    (h2 : ∀ e ∈ tr.blocked, e.zone ∈ known) :
    (∃ a ∈ (process_target_result known prev target rid now tr store).2.1,
        a.zone = z ∧ a.new_status = s) ↔
      ((s = "listed" ∧ (∃ e ∈ tr.listed, e.zone = z) ∧ prev z ≠ some "listed") ∨
       (s = "blocked" ∧ (∃ e ∈ tr.blocked, e.zone = z) ∧
         prev z ≠ some "blocked")) := by
  unfold process_target_result
  simp only [process_listed_alerts, process_blocked_alerts, List.mem_append,
    List.mem_filterMap]
  constructor
  · rintro ⟨a, ha | ha, hz, hs⟩
    · obtain ⟨e, he, hfe⟩ := ha
      by_cases hc : e.zone ∈ known ∧ ¬(prev e.zone = some "listed")
      · rw [if_pos hc] at hfe
        obtain ⟨hk, hp⟩ := hc
        cases hfe
        left
        exact ⟨hs.symm, ⟨e, he, hz⟩, by rwa [← hz]⟩
      · rw [if_neg hc] at hfe
        cases hfe
    · obtain ⟨e, he, hfe⟩ := ha
      by_cases hc : e.zone ∈ known ∧ ¬(prev e.zone = some "blocked")
      · rw [if_pos hc] at hfe
        obtain ⟨hk, hp⟩ := hc
        cases hfe
        right
        exact ⟨hs.symm, ⟨e, he, hz⟩, by rwa [← hz]⟩
      · rw [if_neg hc] at hfe
        cases hfe
  · rintro (⟨hs, ⟨e, he, hez⟩, hp⟩ | ⟨hs, ⟨e, he, hez⟩, hp⟩)
    · refine ⟨⟨"newly_listed", e.zone, prev e.zone, "listed",
        "Target " ++ target ++ " is now listed on " ++ e.zone, false⟩,
        Or.inl ⟨e, he, if_pos ⟨h1 e he, by rwa [hez]⟩⟩, hez, hs.symm⟩
    · refine ⟨⟨"blocked", e.zone, prev e.zone, "blocked",
        "Target " ++ target ++ " is blocked on " ++ e.zone ++
          " (limits reached)", false⟩,
        Or.inr ⟨e, he, if_pos ⟨h2 e he, by rwa [hez]⟩⟩, hez, hs.symm⟩

/-- Claim C5, witness: a target newly listed on zone z1 with no prior
record produces an alert for (target, z1) with new status "listed". -/
theorem c5_alert_iff_transition_witness :
    ∃ a ∈ (process_target_result ["z1"] (fun _ => none) "1.2.3.4" 7 5
        ⟨"1.2.3.4", "ip", [⟨"z1", ["127.0.0.2"], []⟩], [], [], 0⟩ []).2.1,
      a.zone = "z1" ∧ a.new_status = "listed" :=
  (c5_alert_iff_transition ["z1"] (fun _ => none) "1.2.3.4" 7 5
      ⟨"1.2.3.4", "ip", [⟨"z1", ["127.0.0.2"], []⟩], [], [], 0⟩ [] "z1" "listed"
      (by simp) (by simp)).mpr
    (Or.inl ⟨rfl, ⟨⟨"z1", ["127.0.0.2"], []⟩, by simp, rfl⟩, by simp⟩)

/-- Claim C8: `_save_check_result` upserts. Starting from a store with
at most one row per zone, the result again has at most one row per
zone; and when a row for the zone already exists, the store keeps its
length (the row is updated in place, no second row is inserted) and
contains an updated row for the zone carrying the saved status, the
check time, the saved error reason and run id, whose last_seen field is
advanced to now exactly when the saved status is not "not_listed" and
keeps its previous value otherwise. -/
theorem c8_upsert_unique (store : List StoredRow) (zone status : String)
    (a : List String) (rid : Nat) (err : Option String) (now : Nat)
    (hnd : (store.map StoredRow.zone).Nodup) :
    ((save_check_result store zone status a rid err now).map StoredRow.zone).Nodup ∧
    (∀ r ∈ store, r.zone = zone →
      (save_check_result store zone status a rid err now).length = store.length ∧
      ∃ r2 ∈ save_check_result store zone status a rid err now,
        r2.zone = zone ∧ r2.status = status ∧ r2.last_checked = now ∧
        r2.error_reason = err ∧ r2.runId = rid ∧
        r2.last_seen = (if status = "not_listed" then r.last_seen else now)) := by
  unfold save_check_result
  by_cases hex : (store.find? (fun r => r.zone == zone)).isSome
  · rw [if_pos hex]
    constructor
    · rw [updateFirst_map_zone (fun r => r.zone == zone)
        (save_update status a rid err now) (fun r => rfl)]
      exact hnd
    · intro r hr hz
      refine ⟨updateFirst_length _ _ _, ?_⟩
      refine ⟨_, updateFirst_mem store zone _ hnd r hr hz, ?_⟩
      simp [save_update, hz]
  · rw [if_neg hex]
    have hfn : store.find? (fun r => r.zone == zone) = none :=
      Option.not_isSome_iff_eq_none.mp hex
    have hnin : zone ∉ store.map StoredRow.zone := by
      intro hmem
      obtain ⟨rr, hrr, hrz⟩ := List.mem_map.mp hmem
      have hne := List.find?_eq_none.mp hfn rr hrr
      simp [hrz] at hne
    constructor
    · simp only [List.map_append, List.map_cons, List.map_nil]
      rw [List.nodup_append]
      exact ⟨hnd, List.nodup_singleton _,
        by simpa [List.disjoint_singleton] using hnin⟩
    · intro r hr hz
      exfalso
      have hne := List.find?_eq_none.mp hfn r hr
      simp [hz] at hne

/-- Claim C8, witness: the upsert theorem applied to a store holding
one row for zone z (status "listed", last_seen 1) when an "error"
result is saved at time 9: zones stay unique, and for the existing row
the store keeps length 1 and holds the updated row with last_seen
advanced to 9. -/
theorem c8_upsert_unique_witness :
    ((save_check_result [⟨"z", "listed", some ["127.0.0.2"], none, 1, 1, 1⟩]
        "z" "error" [] 2 (some "timeout") 9).map StoredRow.zone).Nodup ∧
    (∀ r ∈ [(⟨"z", "listed", some ["127.0.0.2"], none, 1, 1, 1⟩ : StoredRow)],
      r.zone = "z" →
      (save_check_result [⟨"z", "listed", some ["127.0.0.2"], none, 1, 1, 1⟩]
          "z" "error" [] 2 (some "timeout") 9).length =
        [(⟨"z", "listed", some ["127.0.0.2"], none, 1, 1, 1⟩ : StoredRow)].length ∧
      ∃ r2 ∈ save_check_result [⟨"z", "listed", some ["127.0.0.2"], none, 1, 1, 1⟩]
          "z" "error" [] 2 (some "timeout") 9,
        r2.zone = "z" ∧ r2.status = "error" ∧ r2.last_checked = 9 ∧
        r2.error_reason = some "timeout" ∧ r2.runId = 2 ∧
        r2.last_seen = (if "error" = "not_listed" then r.last_seen else 9)) :=
  c8_upsert_unique [⟨"z", "listed", some ["127.0.0.2"], none, 1, 1, 1⟩]
    "z" "error" [] 2 (some "timeout") 9 (by simp)

/-- Claim C9: calling `run_monitoring` while another run is in progress
raises immediately with the run-in-progress error; no Run record is
created, no run state is marked, no webhook is dispatched and the flag
of the in-progress run is not touched — the trace consists of the
raised error alone. -/
theorem c9_reject_while_running (emptyScope : Bool) (stepsFail : Option String) :
    run_monitoring_trace true emptyScope stepsFail =
      [Event.raised "Monitoring is already running"] ∧
    Event.runCreated ∉ run_monitoring_trace true emptyScope stepsFail ∧
    Event.flagCleared ∉ run_monitoring_trace true emptyScope stepsFail := by
  have h : run_monitoring_trace true emptyScope stepsFail =
      [Event.raised "Monitoring is already running"] := rfl
  refine ⟨h, ?_, ?_⟩ <;> rw [h] <;> decide

end DNSBL
